import Mathlib

/-!
Verification of the go-scrapfly client library: sentinel error taxonomy,
error classification, single-request execution, concurrent dispatch, and
the JS-scenario builder.  Pure data and functions are embedded shallowly;
the components only declared by the repository (classifier, executor,
dispatcher) are modelled from the specification.
-/

namespace Scrapfly

/-- The fixed closed set of sentinel error kinds, one constructor per
sentinel error variable declared in the source (`ErrBadAPIKey` ..
`ErrUnhandledAPIResponse`). -/
inductive SentinelKind where
  | ErrBadAPIKey
  | ErrScrapeConfig
  | ErrScreenshotConfig
  | ErrExtractionConfig
  | ErrContentType
  | ErrTooManyRequests
  | ErrQuotaLimitReached
  | ErrScreenshotAPIFailed
  | ErrExtractionAPIFailed
  | ErrUpstreamClient
  | ErrUpstreamServer
  | ErrAPIClient
  | ErrAPIServer
  | ErrScrapeFailed
  | ErrProxyFailed
  | ErrASPBypassFailed
  | ErrScheduleFailed
  | ErrWebhookFailed
  | ErrSessionFailed
  | ErrUnhandledAPIResponse
deriving DecidableEq, Repr

/-- The message each sentinel error is constructed with (`errors.New(...)`
in the source). -/
def sentinelMessage : SentinelKind → String
  | .ErrBadAPIKey => "invalid key, must be a non-empty string"
  | .ErrScrapeConfig => "invalid scrape config"
  | .ErrScreenshotConfig => "invalid screenshot config"
  | .ErrExtractionConfig => "invalid extraction config"
  | .ErrContentType => "invalid content type for this operation"
  | .ErrTooManyRequests => "too many requests"
  | .ErrQuotaLimitReached => "quota limit reached"
  | .ErrScreenshotAPIFailed => "screenshot API error"
  | .ErrExtractionAPIFailed => "extraction API error"
  | .ErrUpstreamClient => "upstream http client error"
  | .ErrUpstreamServer => "upstream http server error"
  | .ErrAPIClient => "API http client error"
  | .ErrAPIServer => "API http server error"
  | .ErrScrapeFailed => "scrape failed"
  | .ErrProxyFailed => "proxy error"
  | .ErrASPBypassFailed => "ASP bypass error"
  | .ErrScheduleFailed => "schedule error"
  | .ErrWebhookFailed => "webhook error"
  | .ErrSessionFailed => "session error"
  | .ErrUnhandledAPIResponse => "unhandled API error response"

/-- All twenty sentinel kinds, in source declaration order. -/
def allSentinels : List SentinelKind :=
  [.ErrBadAPIKey, .ErrScrapeConfig, .ErrScreenshotConfig, .ErrExtractionConfig,
   .ErrContentType, .ErrTooManyRequests, .ErrQuotaLimitReached,
   .ErrScreenshotAPIFailed, .ErrExtractionAPIFailed, .ErrUpstreamClient,
   .ErrUpstreamServer, .ErrAPIClient, .ErrAPIServer, .ErrScrapeFailed,
   .ErrProxyFailed, .ErrASPBypassFailed, .ErrScheduleFailed, .ErrWebhookFailed,
   .ErrSessionFailed, .ErrUnhandledAPIResponse]

/-- Struct `APIError` detail payload, mirroring the source struct field for field
(the optional embedded `*ScrapeResult` is omitted: no claim touches it). -/
structure APIError where
  Message : String
  Code : String
  HTTPStatusCode : Int
  DocumentationURL : String
  RetryAfterMs : Int
  Hint : String
deriving DecidableEq, Repr

/-- Method `APIError.Error` from the source: format the base message with
`fmt.Sprintf` and append the retry suffix when `RetryAfterMs > 0`. -/
def APIError.errorString (e : APIError) : String :=
  let base := "API Error: " ++ e.Message ++ " (code: " ++ e.Code ++
    ", status: " ++ toString e.HTTPStatusCode ++ ", docs: " ++
    e.DocumentationURL ++ ")"
  if e.RetryAfterMs > 0 then
    base ++ ", retry_after_ms: " ++ toString e.RetryAfterMs
  else
    base

/-- The base part of the message format as the specification words it. -/
def specErrorBase (e : APIError) : String :=
  "API Error: " ++ e.Message ++ " (code: " ++ e.Code ++ ", status: " ++
    toString e.HTTPStatusCode ++ ", docs: " ++ e.DocumentationURL ++ ")"

/-- The retry suffix as the specification words it: present exactly when
`RetryAfterMs > 0`. -/
def specErrorSuffix (e : APIError) : String :=
  if e.RetryAfterMs > 0 then ", retry_after_ms: " ++ toString e.RetryAfterMs
  else ""

/-- The three request operation types distinguished by the executor. -/
inductive ReqType where
  | scrape
  | screenshot
  | extraction
deriving DecidableEq, Repr

/-- Modelled from the spec: the classification of the upstream `code`
string carried by an API error payload.  The classifier (not present in
the repository sources) branches on whether the code indicates
target-site or scraping-API origin, one of the specific API identifiers
(bad key, bad config per request type, quota, throttle), or one of the
specialized domain failures. -/
inductive ErrorCode where
  | targetOrigin
  | apiOrigin
  | badKey
  | badConfig (t : ReqType)
  | quota
  | throttle
  | proxy
  | asp
  | schedule
  | webhook
  | session
  | screenshot
  | extraction
  | unknown
deriving DecidableEq, Repr

/-- Modelled from the spec: the structured API error payload the
classifier parses out of the response body (fields message, code,
http_code, doc_url, retry_after_ms; the retry field may be absent). -/
structure ErrorPayload where
  message : String
  code : ErrorCode
  httpCode : Int
  docURL : String
  retryAfterMs : Option Int
deriving DecidableEq, Repr

/-- Modelled from the spec: the outcome of attempting to parse the raw
response body as a structured API error payload — either a recognized
payload or a malformed/unrecognized body kept raw.  The JSON parsing
itself lives in the decoder, outside the repository sources. -/
inductive Body where
  | malformed (raw : String)
  | parsed (p : ErrorPayload)
deriving DecidableEq, Repr

/-- Modelled from the spec: a transport-level failure (connection refused,
timeout, TLS failure) with its message and whether the failure is
attributable to reaching the target site (as opposed to the scraping API
host). -/
structure TransportErr where
  message : String
  targetAttributable : Bool
deriving DecidableEq, Repr

/-- The specialized domain-failure kind a code maps to, when it is one of
the seven domain-specific codes. -/
def domainKind : ErrorCode → Option SentinelKind
  | .proxy => some .ErrProxyFailed
  | .asp => some .ErrASPBypassFailed
  | .schedule => some .ErrScheduleFailed
  | .webhook => some .ErrWebhookFailed
  | .session => some .ErrSessionFailed
  | .screenshot => some .ErrScreenshotAPIFailed
  | .extraction => some .ErrExtractionAPIFailed
  | _ => none

/-- Whether a code indicates scraping-API origin (the generic API code or
one of the specific API identifiers). -/
def isAPIOriginCode : ErrorCode → Bool
  | .apiOrigin | .badKey | .badConfig _ | .quota | .throttle => true
  | _ => false

/-- The refined api-client kind for a 4xx scraping-API code: bad key,
bad config per request type, quota reached or rate-limited when the code
matches those identifiers, the generic api-client kind otherwise. -/
def refineAPIClient : ErrorCode → SentinelKind
  | .badKey => .ErrBadAPIKey
  | .badConfig .scrape => .ErrScrapeConfig
  | .badConfig .screenshot => .ErrScreenshotConfig
  | .badConfig .extraction => .ErrExtractionConfig
  | .quota => .ErrQuotaLimitReached
  | .throttle => .ErrTooManyRequests
  | _ => .ErrAPIClient

/-- Modelled from the spec: `Classify(rawStatus, body, transportErr)`.
The classifier itself is only declared by the repository; this follows
the spec's decision procedure: a non-nil transport error short-circuits
(proxy-failed when attributable to reaching the target site, upstream
server otherwise; status 0, transport message, body never parsed); a
malformed body classifies as unhandled with the raw body preserved; a
parsed payload goes through the lookup table with the specialized
domain codes taking priority over the generic status buckets. -/
def Classify (rawStatus : Int) (body : Body) (transportErr : Option TransportErr) :
    SentinelKind × APIError :=
  match transportErr with
  | some te =>
    let kind := if te.targetAttributable then SentinelKind.ErrProxyFailed
                else SentinelKind.ErrUpstreamServer
    (kind, ⟨te.message, "", 0, "", 0, ""⟩)
  | none =>
    match body with
    | .malformed raw =>
      (.ErrUnhandledAPIResponse, ⟨raw, "", rawStatus, "", 0, ""⟩)
    | .parsed p =>
      let retry := if p.code = .throttle then p.retryAfterMs.getD 0 else 0
      let detail : APIError := ⟨p.message, "", p.httpCode, p.docURL, retry, ""⟩
      match domainKind p.code with
      | some k => (k, detail)
      | none =>
        if 400 ≤ rawStatus ∧ rawStatus ≤ 499 ∧ p.code = .targetOrigin then
          (.ErrUpstreamClient, detail)
        else if 500 ≤ rawStatus ∧ rawStatus ≤ 599 ∧ p.code = .targetOrigin then
          (.ErrUpstreamServer, detail)
        else if 400 ≤ rawStatus ∧ rawStatus ≤ 499 ∧ isAPIOriginCode p.code then
          (refineAPIClient p.code, detail)
        else if 500 ≤ rawStatus ∧ rawStatus ≤ 599 ∧ isAPIOriginCode p.code then
          (.ErrAPIServer, detail)
        else
          (.ErrUnhandledAPIResponse, detail)

/-- Modelled from the spec: a scrape request configuration (the fields
beyond the target URL do not affect the claims). -/
structure ScrapeConfig where
  url : String
deriving DecidableEq, Repr

/-- Modelled from the spec: a screenshot request configuration. -/
structure ScreenshotConfig where
  url : String
deriving DecidableEq, Repr

/-- Modelled from the spec: an extraction request configuration, whose
content body may be absent (nil in the source language). -/
structure ExtractionConfig where
  body : Option String
  contentType : String
deriving DecidableEq, Repr

/-- Modelled from the spec: the config argument handed to the executor —
one of the three operation types, each possibly nil. -/
inductive ConfigArg where
  | scrapeCfg (c : Option ScrapeConfig)
  | screenshotCfg (c : Option ScreenshotConfig)
  | extractionCfg (c : Option ExtractionConfig)
deriving DecidableEq, Repr

/-- Modelled from the spec: config validation — nil or type-inappropriate
configs (an extraction config without a content body) fail with the
config-specific sentinel; `none` means the config is valid. -/
def validateConfig : ConfigArg → Option SentinelKind
  | .scrapeCfg none => some .ErrScrapeConfig
  | .scrapeCfg (some _) => none
  | .screenshotCfg none => some .ErrScreenshotConfig
  | .screenshotCfg (some _) => none
  | .extractionCfg none => some .ErrExtractionConfig
  | .extractionCfg (some c) =>
    if c.body = none then some .ErrExtractionConfig else none

/-- Modelled from the spec: the outbound request built from a valid
config. -/
structure Request where
  url : String
  reqType : ReqType
deriving DecidableEq, Repr

/-- Modelled from the spec: building the one outbound request from a
config argument (a nil config yields a vacuous request; the executor
never builds one in that case). -/
def buildRequest : ConfigArg → Request
  | .scrapeCfg c => ⟨(c.map ScrapeConfig.url).getD "", .scrape⟩
  | .screenshotCfg c => ⟨(c.map ScreenshotConfig.url).getD "", .screenshot⟩
  | .extractionCfg c => ⟨(c.map ExtractionConfig.contentType).getD "", .extraction⟩

/-- Modelled from the spec: what one Transport exchange returns — status
code, raw body (already split by the decoder into parsed/malformed), and
the transport-level failure if any. -/
structure TransportResult where
  status : Int
  body : Body
  transportErr : Option TransportErr
deriving DecidableEq, Repr

/-- Modelled from the spec: the Transport — one synchronous
request/response exchange. -/
def Transport : Type := Request → TransportResult

/-- Modelled from the spec: the typed result envelope a successful call
decodes into. -/
structure ScrapeResult where
  content : String
  upstreamStatus : Int
deriving DecidableEq, Repr

/-- The raw text of a body, for building the success envelope. -/
def Body.rawText : Body → String
  | .malformed raw => raw
  | .parsed p => p.message

/-- Modelled from the spec: `Execute(config)` — validate first (failing
synchronously with the config-specific sentinel and zero transport
calls), otherwise invoke the Transport exactly once and either decode a
success or classify the failure.  The second component counts Transport
invocations. -/
def Execute (cfg : ConfigArg) (transport : Transport) :
    Except (SentinelKind × APIError) ScrapeResult × Nat :=
  match validateConfig cfg with
  | some k => (Except.error (k, ⟨sentinelMessage k, "", 0, "", 0, ""⟩), 0)
  | none =>
    let resp := transport (buildRequest cfg)
    if resp.transportErr = none ∧ 200 ≤ resp.status ∧ resp.status ≤ 299 then
      (Except.ok ⟨resp.body.rawText, resp.status⟩, 1)
    else
      (Except.error (Classify resp.status resp.body resp.transportErr), 1)

/-- A concrete transport used to evaluate the executor and dispatcher on
closed inputs: every exchange succeeds with status 200. -/
def stubTransport : Transport := fun _ => ⟨200, Body.malformed "ok", none⟩

/-- Modelled from the spec: the effective concurrency the dispatcher
runs with — unbounded up to `len(configs)` when the argument is ≤ 0,
clamped to `len(configs)` when it exceeds the batch size. -/
def effectiveConcurrency (numConfigs : Nat) (concurrency : Int) : Nat :=
  if concurrency ≤ 0 then numConfigs
  else min concurrency.toNat numConfigs

/-- Modelled from the spec: the dispatcher's bookkeeping — the queue of
not-yet-started jobs (index-tagged configs), the jobs currently held by
workers, and the outcomes already delivered on the output stream. -/
structure DispatchState where
  pending : List (Nat × ConfigArg)
  inFlight : List (Nat × ConfigArg)
  delivered : List (Nat × (Except (SentinelKind × APIError) ScrapeResult))

/-- Modelled from the spec: one scheduler step of the worker pool — admit
the next pending job while a worker slot (bounded by `C`) is free,
otherwise let the oldest in-flight job run to completion and deliver its
outcome. -/
def dispatchStep (C : Nat) (transport : Transport) (s : DispatchState) :
    DispatchState :=
  match s.pending, s.inFlight with
  | j :: rest, f =>
    if f.length < C then ⟨rest, f ++ [j], s.delivered⟩
    else
      match f with
      | [] => s
      | j' :: f' => ⟨s.pending, f', s.delivered ++ [(j'.1, (Execute j'.2 transport).1)]⟩
  | [], f =>
    match f with
    | [] => s
    | j' :: f' => ⟨s.pending, f', s.delivered ++ [(j'.1, (Execute j'.2 transport).1)]⟩

/-- Iterate the scheduler for `fuel` steps. -/
def dispatchRun (C : Nat) (transport : Transport) :
    Nat → DispatchState → DispatchState
  | 0, s => s
  | fuel + 1, s => dispatchRun C transport fuel (dispatchStep C transport s)

/-- Modelled from the spec: `Dispatch(configs, concurrency)` — run every
config through the executor under the bounded worker pool and return the
full output stream, closed after the last delivery (the returned list
ends exactly when the stream is closed). -/
def Dispatch (configs : List ConfigArg) (concurrency : Int)
    (transport : Transport) :
    List (Nat × (Except (SentinelKind × APIError) ScrapeResult)) :=
  let C := effectiveConcurrency configs.length concurrency
  (dispatchRun C transport (2 * configs.length)
    ⟨configs.enum, [], []⟩).delivered

end Scrapfly

namespace JsScenario

/-- Type `SelectorState` — the desired state of an element to wait for
(a string type in the source, with constants "visible" and "hidden"). -/
abbrev SelectorState : Type := String

/-- Type `ConditionAction` — the behavior when a condition is met (a string
type in the source). -/
abbrev ConditionAction : Type := String

/-- Struct `clickParams` from the source. -/
structure ClickParams where
  selector : String
  ignoreIfNotVisible : Bool := false
  multiple : Bool := false
deriving DecidableEq, Repr

/-- Struct `fillParams` from the source. -/
structure FillParams where
  selector : String
  value : String
  clear : Bool := false
deriving DecidableEq, Repr

/-- Struct `executeParams` from the source. -/
structure ExecuteParams where
  script : String
  timeout : Int := 0
deriving DecidableEq, Repr

/-- Struct `waitForNavParams` from the source. -/
structure WaitForNavParams where
  timeout : Int := 0
deriving DecidableEq, Repr

/-- Struct `waitForSelectorParams` from the source. -/
structure WaitForSelectorParams where
  selector : String
  state : SelectorState := ""
  timeout : Int := 0
deriving DecidableEq, Repr

/-- Struct `scrollParams` from the source. -/
structure ScrollParams where
  element : String := ""
  selector : String := ""
  infinite : Int := 0
  clickSelector : String := ""
deriving DecidableEq, Repr

/-- Struct `conditionParams` from the source. -/
structure ConditionParams where
  statusCode : Int := 0
  selector : String := ""
  selectorState : SelectorState := ""
  action : String := ""
deriving DecidableEq, Repr

/-- The value stored under a step's single key — a tagged union of the
parameter structs (the source stores these as `any`). -/
inductive StepValue where
  | click (p : ClickParams)
  | fill (p : FillParams)
  | wait (milliseconds : Int)
  | execute (p : ExecuteParams)
  | waitForNavigation (p : WaitForNavParams)
  | waitForSelector (p : WaitForSelectorParams)
  | scroll (p : ScrollParams)
  | condition (p : ConditionParams)
deriving DecidableEq, Repr

/-- Type `JSScenarioStep` — in the source a `map[string]any` holding a single
key (the action name); embedded as the pair of that key and its value. -/
abbrev JSScenarioStep : Type := String × StepValue

/-- Struct `ScenarioBuilder` from the source: accumulated steps plus a sticky
error. -/
structure ScenarioBuilder where
  steps : List JSScenarioStep
  err : Option String

/-- Constructor `New()` — a fresh builder with no steps and no error. -/
def New : ScenarioBuilder := ⟨[], none⟩

/-- Method `Build()` — fail if a sticky error was recorded, return `(nil, nil)`
for an empty scenario, and the step list otherwise.  The Go pair
`([]JSScenarioStep, error)` is embedded as
`Except String (Option (List JSScenarioStep))` with `none` for the nil
slice. -/
def ScenarioBuilder.build (b : ScenarioBuilder) :
    Except String (Option (List JSScenarioStep)) :=
  match b.err with
  | some e => Except.error e
  | none => if b.steps.isEmpty then Except.ok none else Except.ok (some b.steps)

/-- Method `Click` — append a click step unless the builder already failed.
Variadic options become a list of parameter transformers applied in
order. -/
def ScenarioBuilder.click (b : ScenarioBuilder) (selector : String)
    (opts : List (ClickParams → ClickParams) := []) : ScenarioBuilder :=
  if b.err.isSome then b
  else
    let params := opts.foldl (fun p o => o p) ⟨selector, false, false⟩
    { b with steps := b.steps ++ [("click", StepValue.click params)] }

/-- Method `Fill` — append a fill step unless the builder already failed. -/
def ScenarioBuilder.fill (b : ScenarioBuilder) (selector value : String)
    (opts : List (FillParams → FillParams) := []) : ScenarioBuilder :=
  if b.err.isSome then b
  else
    let params := opts.foldl (fun p o => o p) ⟨selector, value, false⟩
    { b with steps := b.steps ++ [("fill", StepValue.fill params)] }

/-- Method `Wait` — append a wait step unless the builder already failed. -/
def ScenarioBuilder.wait (b : ScenarioBuilder) (milliseconds : Int) :
    ScenarioBuilder :=
  if b.err.isSome then b
  else { b with steps := b.steps ++ [("wait", StepValue.wait milliseconds)] }

/-- Method `Execute` — append an execute step unless the builder already
failed. -/
def ScenarioBuilder.execute (b : ScenarioBuilder) (script : String)
    (opts : List (ExecuteParams → ExecuteParams) := []) : ScenarioBuilder :=
  if b.err.isSome then b
  else
    let params := opts.foldl (fun p o => o p) ⟨script, 0⟩
    { b with steps := b.steps ++ [("execute", StepValue.execute params)] }

/-- Method `WaitForNavigation` — append a wait_for_navigation step unless the
builder already failed. -/
def ScenarioBuilder.waitForNavigation (b : ScenarioBuilder)
    (opts : List (WaitForNavParams → WaitForNavParams) := []) : ScenarioBuilder :=
  if b.err.isSome then b
  else
    let params := opts.foldl (fun p o => o p) ⟨0⟩
    { b with steps :=
        b.steps ++ [("wait_for_navigation", StepValue.waitForNavigation params)] }

/-- Method `WaitForSelector` — append a wait_for_selector step unless the
builder already failed. -/
def ScenarioBuilder.waitForSelector (b : ScenarioBuilder) (selector : String)
    (opts : List (WaitForSelectorParams → WaitForSelectorParams) := []) :
    ScenarioBuilder :=
  if b.err.isSome then b
  else
    let params := opts.foldl (fun p o => o p) ⟨selector, "", 0⟩
    { b with steps :=
        b.steps ++ [("wait_for_selector", StepValue.waitForSelector params)] }

/-- Method `Scroll` — append a scroll step unless the builder already failed. -/
def ScenarioBuilder.scroll (b : ScenarioBuilder)
    (opts : List (ScrollParams → ScrollParams) := []) : ScenarioBuilder :=
  if b.err.isSome then b
  else
    let params := opts.foldl (fun p o => o p) ⟨"", "", 0, ""⟩
    { b with steps := b.steps ++ [("scroll", StepValue.scroll params)] }

/-- Method `ConditionOnStatusCode` — append a condition step on the HTTP status
code unless the builder already failed. -/
def ScenarioBuilder.conditionOnStatusCode (b : ScenarioBuilder)
    (statusCode : Int) (action : ConditionAction) : ScenarioBuilder :=
  if b.err.isSome then b
  else
    { b with steps :=
        b.steps ++ [("condition", StepValue.condition ⟨statusCode, "", "", action⟩)] }

/-- Method `ConditionOnSelector` — append a condition step on element presence
unless the builder already failed. -/
def ScenarioBuilder.conditionOnSelector (b : ScenarioBuilder)
    (selector : String) (state : SelectorState) (action : ConditionAction) :
    ScenarioBuilder :=
  if b.err.isSome then b
  else
    { b with steps :=
        b.steps ++ [("condition", StepValue.condition ⟨0, selector, state, action⟩)] }

/-- One call to a provided action method of the builder, with its
arguments. -/
inductive Action where
  | click (selector : String) (opts : List (ClickParams → ClickParams))
  | fill (selector value : String) (opts : List (FillParams → FillParams))
  | wait (milliseconds : Int)
  | execute (script : String) (opts : List (ExecuteParams → ExecuteParams))
  | waitForNavigation (opts : List (WaitForNavParams → WaitForNavParams))
  | waitForSelector (selector : String)
      (opts : List (WaitForSelectorParams → WaitForSelectorParams))
  | scroll (opts : List (ScrollParams → ScrollParams))
  | conditionOnStatusCode (statusCode : Int) (action : ConditionAction)
  | conditionOnSelector (selector : String) (state : SelectorState)
      (action : ConditionAction)

/-- Apply one action-method call to a builder. -/
def applyAction (b : ScenarioBuilder) : Action → ScenarioBuilder
  | .click s opts => b.click s opts
  | .fill s v opts => b.fill s v opts
  | .wait ms => b.wait ms
  | .execute sc opts => b.execute sc opts
  | .waitForNavigation opts => b.waitForNavigation opts
  | .waitForSelector s opts => b.waitForSelector s opts
  | .scroll opts => b.scroll opts
  | .conditionOnStatusCode c a => b.conditionOnStatusCode c a
  | .conditionOnSelector s st a => b.conditionOnSelector s st a

/-- Run a finite sequence of action-method calls starting from `New`. -/
def runActions (actions : List Action) : ScenarioBuilder :=
  actions.foldl applyAction New

/-- The single step each action-method call appends. -/
def actionStep : Action → JSScenarioStep
  | .click s opts => ("click", .click (opts.foldl (fun p o => o p) ⟨s, false, false⟩))
  | .fill s v opts => ("fill", .fill (opts.foldl (fun p o => o p) ⟨s, v, false⟩))
  | .wait ms => ("wait", .wait ms)
  | .execute sc opts => ("execute", .execute (opts.foldl (fun p o => o p) ⟨sc, 0⟩))
  | .waitForNavigation opts =>
    ("wait_for_navigation", .waitForNavigation (opts.foldl (fun p o => o p) ⟨0⟩))
  | .waitForSelector s opts =>
    ("wait_for_selector", .waitForSelector (opts.foldl (fun p o => o p) ⟨s, "", 0⟩))
  | .scroll opts => ("scroll", .scroll (opts.foldl (fun p o => o p) ⟨"", "", 0, ""⟩))
  | .conditionOnStatusCode c a => ("condition", .condition ⟨c, "", "", a⟩)
  | .conditionOnSelector s st a => ("condition", .condition ⟨0, s, st, a⟩)

end JsScenario

namespace Scrapfly

lemma classify_parsed_snd (s : Int) (p : ErrorPayload) :
    (Classify s (Body.parsed p) none).2 =
      ⟨p.message, "",  p.httpCode, p.docURL,
       if p.code = ErrorCode.throttle then p.retryAfterMs.getD 0 else 0, ""⟩ := by
  rcases p with ⟨m, c, hc, d, r⟩
  cases c <;> simp [Classify, domainKind] <;>
    first
      | rfl
      | (split <;> first | rfl | (split <;> first | rfl | (split <;> first | rfl | (split <;> rfl))))

/-- C2: the sentinel error kinds form a fixed closed set of twenty
pairwise-distinct values with pairwise-distinct messages, every kind is
a member of the set, and every classified failure carries exactly one
kind drawn from it (together with an APIError detail payload). -/
theorem sentinels_closed_distinct_set :
    allSentinels.length = 20 ∧ allSentinels.Nodup ∧
    (∀ k : SentinelKind, k ∈ allSentinels) ∧
    allSentinels.Pairwise (fun a b => sentinelMessage a ≠ sentinelMessage b) ∧
    (∀ (rawStatus : Int) (body : Body) (te : Option TransportErr),
      (Classify rawStatus body te).1 ∈ allSentinels) := by
  have hmem : ∀ k : SentinelKind, k ∈ allSentinels := by
    intro k; cases k <;> simp [allSentinels]
  exact ⟨rfl, by decide, hmem, by decide, fun s b te => hmem _⟩

/-- C10: `APIError.Error` renders exactly the base format
"API Error: Message (code: Code, status: Status, docs: Docs)" followed by
the ", retry_after_ms: N" suffix, and the suffix is nonempty exactly when
`RetryAfterMs > 0`. -/
theorem apiError_error_format :
    ∀ e : APIError,
      APIError.errorString e = specErrorBase e ++ specErrorSuffix e ∧
      (0 < e.RetryAfterMs ↔ specErrorSuffix e ≠ "") := by
  intro e
  constructor
  · simp only [APIError.errorString, specErrorBase, specErrorSuffix]
    split
    · rw [String.append_assoc]
    · rw [String.append_empty]
  · unfold specErrorSuffix
    constructor
    · intro h
      rw [if_pos h]
      intro contra
      have hlen := congrArg String.length contra
      rw [String.length_append] at hlen
      have h18 : (", retry_after_ms: " : String).length = 18 := rfl
      have h0 : ("" : String).length = 0 := rfl
      omega
    · intro h
      by_contra hle
      rw [if_neg hle] at h
      exact h rfl

/-- C3: with a non-nil transport error, `Classify` ignores the body
entirely and returns a transport-attributable kind (proxy-failed when the
failure is attributable to reaching the target site, upstream-server
otherwise), with detail status 0 and the transport message. -/
theorem classify_transport_error :
    ∀ (rawStatus : Int) (body body' : Body) (te : TransportErr),
      Classify rawStatus body (some te) = Classify rawStatus body' (some te) ∧
      (Classify rawStatus body (some te)).1 =
        (if te.targetAttributable then SentinelKind.ErrProxyFailed
         else SentinelKind.ErrUpstreamServer) ∧
      (Classify rawStatus body (some te)).2.HTTPStatusCode = 0 ∧
      (Classify rawStatus body (some te)).2.Message = te.message := by
  intro s b b' te
  exact ⟨rfl, rfl, rfl, rfl⟩

/-- C4: a code matching one of the specialized domain failures (proxy,
ASP bypass, schedule, webhook, session, screenshot, extraction) always
yields the matching specialized kind, whatever status bucket `rawStatus`
falls into. -/
theorem classify_domain_code_priority :
    ∀ (rawStatus : Int) (p : ErrorPayload) (k : SentinelKind),
      domainKind p.code = some k →
      (Classify rawStatus (Body.parsed p) none).1 = k := by
  intro s p k h
  simp [Classify, h]

/-- C4 witness: a proxy code under a 503 (5xx) status still classifies as
proxy-failed, not as a server bucket. -/
theorem classify_domain_code_priority_witness :
    (Classify 503 (Body.parsed ⟨"proxy down", ErrorCode.proxy, 503, "", none⟩)
      none).1 = SentinelKind.ErrProxyFailed :=
  classify_domain_code_priority 503 ⟨"proxy down", ErrorCode.proxy, 503, "", none⟩
    SentinelKind.ErrProxyFailed rfl

/-- C5: the throttle payload with status 429 and retry_after_ms 3000
classifies as too-many-requests with `RetryAfterMs = 3000`, and any
rate-limited classification whose payload omits retry_after_ms gets
`RetryAfterMs = 0`. -/
theorem classify_rate_limit_retry_after :
    (Classify 429 (Body.parsed ⟨"", ErrorCode.throttle, 429, "", some 3000⟩)
        none).1 = SentinelKind.ErrTooManyRequests ∧
    (Classify 429 (Body.parsed ⟨"", ErrorCode.throttle, 429, "", some 3000⟩)
        none).2.RetryAfterMs = 3000 ∧
    (∀ (rawStatus : Int) (p : ErrorPayload),
      (Classify rawStatus (Body.parsed p) none).1 =
          SentinelKind.ErrTooManyRequests →
      p.retryAfterMs = none →
      (Classify rawStatus (Body.parsed p) none).2.RetryAfterMs = 0) := by
  refine ⟨by decide, by decide, ?_⟩
  intro s p _ hnone
  rw [classify_parsed_snd]
  simp [hnone]

/-- C5 witness: a throttle payload with no retry_after_ms at status 429
classifies as too-many-requests with the default `RetryAfterMs = 0`. -/
theorem classify_rate_limit_retry_after_witness :
    (Classify 429 (Body.parsed ⟨"", ErrorCode.throttle, 429, "", none⟩)
      none).2.RetryAfterMs = 0 :=
  classify_rate_limit_retry_after.2.2 429 ⟨"", ErrorCode.throttle, 429, "", none⟩
    (by decide) rfl

/-- C7: the dispatcher's effective concurrency is the batch size when the
argument is non-positive, the batch size again when the argument exceeds
it, and the argument itself otherwise. -/
theorem effectiveConcurrency_cases :
    ∀ (n : Nat) (conc : Int),
      (conc ≤ 0 → effectiveConcurrency n conc = n) ∧
      ((n : Int) < conc → effectiveConcurrency n conc = n) ∧
      (0 < conc → conc ≤ (n : Int) → effectiveConcurrency n conc = conc.toNat) := by
  intro n conc
  refine ⟨fun h => ?_, fun h => ?_, fun h1 h2 => ?_⟩ <;>
    simp only [effectiveConcurrency] <;> split <;> omega

/-- C7 witness: concrete evaluations of the three clamping cases. -/
theorem effectiveConcurrency_cases_witness :
    effectiveConcurrency 5 (-1) = 5 ∧ effectiveConcurrency 5 9 = 5 ∧
    effectiveConcurrency 5 3 = 3 :=
  ⟨(effectiveConcurrency_cases 5 (-1)).1 (by decide),
   (effectiveConcurrency_cases 5 9).2.1 (by decide),
   (effectiveConcurrency_cases 5 3).2.2 (by decide) (by decide)⟩

/-- C6: a config that fails validation (nil or type-inappropriate, such
as an extraction config without a content body) makes the executor fail
synchronously with the config-specific sentinel and zero Transport
invocations, while a valid config leads to exactly one Transport
invocation. -/
theorem execute_validation_single_call :
    ∀ (cfg : ConfigArg) (t : Transport),
      (∀ k, validateConfig cfg = some k →
        Execute cfg t =
          (Except.error (k, ⟨sentinelMessage k, "", 0, "", 0, ""⟩), 0)) ∧
      (validateConfig cfg = none → (Execute cfg t).2 = 1) := by
  intro cfg t
  constructor
  · intro k h
    simp [Execute, h]
  · intro h
    simp only [Execute, h]
    split <;> rfl

/-- C6 witness: an extraction config with a nil content body fails with
the extraction sentinel and zero transport calls, and a valid scrape
config performs exactly one transport call. -/
theorem execute_validation_single_call_witness :
    Execute (ConfigArg.extractionCfg (some ⟨none, "text/html"⟩)) stubTransport =
      (Except.error (SentinelKind.ErrExtractionConfig,
        ⟨sentinelMessage SentinelKind.ErrExtractionConfig, "", 0, "", 0, ""⟩), 0) ∧
    (Execute (ConfigArg.scrapeCfg (some ⟨"https://example.com"⟩))
      stubTransport).2 = 1 :=
  ⟨(execute_validation_single_call
      (ConfigArg.extractionCfg (some ⟨none, "text/html"⟩)) stubTransport).1
      SentinelKind.ErrExtractionConfig rfl,
   (execute_validation_single_call
      (ConfigArg.scrapeCfg (some ⟨"https://example.com"⟩)) stubTransport).2 rfl⟩

lemma dispatchStep_enqueue (C : Nat) (t : Transport) (j : Nat × ConfigArg)
    (rest f : List (Nat × ConfigArg))
    (d : List (Nat × Except (SentinelKind × APIError) ScrapeResult))
    (h : f.length < C) :
    dispatchStep C t ⟨j :: rest, f, d⟩ = ⟨rest, f ++ [j], d⟩ := by
  simp [dispatchStep, h]

lemma dispatchStep_busy (C : Nat) (t : Transport) (j : Nat × ConfigArg)
    (rest : List (Nat × ConfigArg)) (j' : Nat × ConfigArg)
    (f' : List (Nat × ConfigArg))
    (d : List (Nat × Except (SentinelKind × APIError) ScrapeResult))
    (h : ¬ (j' :: f' : List (Nat × ConfigArg)).length < C) :
    dispatchStep C t ⟨j :: rest, j' :: f', d⟩ =
      ⟨j :: rest, f', d ++ [(j'.1, (Execute j'.2 t).1)]⟩ := by
  have h' : C ≤ f'.length + 1 := by simp at h; omega
  simp [dispatchStep, h']

lemma dispatchStep_drain (C : Nat) (t : Transport) (j' : Nat × ConfigArg)
    (f' : List (Nat × ConfigArg))
    (d : List (Nat × Except (SentinelKind × APIError) ScrapeResult)) :
    dispatchStep C t ⟨[], j' :: f', d⟩ =
      ⟨[], f', d ++ [(j'.1, (Execute j'.2 t).1)]⟩ := rfl

lemma dispatchRun_complete (C : Nat) (t : Transport) (hC : 1 ≤ C) :
    ∀ (fuel : Nat) (p f : List (Nat × ConfigArg))
      (d : List (Nat × Except (SentinelKind × APIError) ScrapeResult)),
      2 * p.length + f.length ≤ fuel →
      (dispatchRun C t fuel ⟨p, f, d⟩).pending = [] ∧
      (dispatchRun C t fuel ⟨p, f, d⟩).inFlight = [] ∧
      (dispatchRun C t fuel ⟨p, f, d⟩).delivered.map Prod.fst =
        d.map Prod.fst ++ f.map Prod.fst ++ p.map Prod.fst := by
  intro fuel
  induction fuel with
  | zero =>
    intro p f d hm
    have hp : p.length = 0 := by omega
    have hf : f.length = 0 := by omega
    rw [List.length_eq_zero] at hp hf
    subst hp hf
    simp [dispatchRun]
  | succ n ih =>
    intro p f d hm
    have hstep : dispatchRun C t (n + 1) ⟨p, f, d⟩ =
        dispatchRun C t n (dispatchStep C t ⟨p, f, d⟩) := rfl
    rw [hstep]
    rcases p with _ | ⟨j, rest⟩
    · rcases f with _ | ⟨j', f'⟩
      · have h0 : dispatchStep C t ⟨[], [], d⟩ = ⟨[], [], d⟩ := rfl
        rw [h0]
        have := ih [] [] d (by simp)
        simpa using this
      · rw [dispatchStep_drain]
        have := ih [] f' (d ++ [(j'.1, (Execute j'.2 t).1)]) (by simp at hm ⊢; omega)
        refine ⟨this.1, this.2.1, ?_⟩
        rw [this.2.2]
        simp
    · by_cases hfc : f.length < C
      · rw [dispatchStep_enqueue C t j rest f d hfc]
        have := ih rest (f ++ [j]) d (by simp at hm ⊢; omega)
        refine ⟨this.1, this.2.1, ?_⟩
        rw [this.2.2]
        simp
      · rcases f with _ | ⟨j', f'⟩
        · exact absurd (by simp only [List.length_nil]; omega :
            ([] : List (Nat × ConfigArg)).length < C) hfc
        · rw [dispatchStep_busy C t j rest j' f' d hfc]
          have := ih (j :: rest) f' (d ++ [(j'.1, (Execute j'.2 t).1)])
            (by simp at hm ⊢; omega)
          refine ⟨this.1, this.2.1, ?_⟩
          rw [this.2.2]
          simp

/-- C1: under any concurrency limit between 1 and the batch size, the
dispatcher delivers exactly one outcome per submitted config — the
output stream carries every index once, with no drop and no duplicate —
and the stream ends exactly after all `len(configs)` outcomes. -/
theorem dispatch_exactly_one_outcome :
    ∀ (configs : List ConfigArg) (concurrency : Int) (t : Transport),
      1 ≤ concurrency → concurrency ≤ (configs.length : Int) →
      (Dispatch configs concurrency t).length = configs.length ∧
      (Dispatch configs concurrency t).map Prod.fst =
        List.range configs.length ∧
      (∀ i, i < configs.length →
        ((Dispatch configs concurrency t).map Prod.fst).count i = 1) := by
  intro configs conc t h1 h2
  have hC : 1 ≤ effectiveConcurrency configs.length conc := by
    simp only [effectiveConcurrency]
    split <;> omega
  have hrun := dispatchRun_complete (effectiveConcurrency configs.length conc)
    t hC (2 * configs.length) configs.enum [] []
    (by simp [List.enum_length])
  have hmap : (Dispatch configs conc t).map Prod.fst =
      List.range configs.length := by
    show ((dispatchRun (effectiveConcurrency configs.length conc) t
        (2 * configs.length) ⟨configs.enum, [], []⟩).delivered).map Prod.fst = _
    rw [hrun.2.2]
    simp [List.enum_map_fst]
  refine ⟨?_, hmap, ?_⟩
  · have hlen := congrArg List.length hmap
    simpa using hlen
  · intro i hi
    rw [hmap]
    exact List.count_eq_one_of_mem (List.nodup_range _) (List.mem_range.mpr hi)

/-- C1 witness: a batch of three configs dispatched with concurrency 2
delivers indices 0, 1, 2 exactly once each. -/
theorem dispatch_exactly_one_outcome_witness :
    (Dispatch [ConfigArg.scrapeCfg (some ⟨"a"⟩), ConfigArg.scrapeCfg none,
        ConfigArg.extractionCfg (some ⟨none, "t"⟩)] 2 stubTransport).map
      Prod.fst = List.range 3 :=
  (dispatch_exactly_one_outcome
    [ConfigArg.scrapeCfg (some ⟨"a"⟩), ConfigArg.scrapeCfg none,
     ConfigArg.extractionCfg (some ⟨none, "t"⟩)] 2 stubTransport
    (by decide) (by decide)).2.1

/-- C8: a body that failed to parse as a structured error payload always
classifies (totally, never crashing) as unhandled-API-response with the
raw body preserved in the detail message. -/
theorem classify_malformed_unhandled :
    ∀ (rawStatus : Int) (raw : String),
      (Classify rawStatus (Body.malformed raw) none).1 =
        SentinelKind.ErrUnhandledAPIResponse ∧
      (Classify rawStatus (Body.malformed raw) none).2.Message = raw := by
  intro s raw
  exact ⟨rfl, rfl⟩

end Scrapfly

namespace JsScenario

lemma applyAction_of_err_none (b : ScenarioBuilder) (a : Action)
    (hb : b.err = none) :
    (applyAction b a).err = none ∧
    (applyAction b a).steps = b.steps ++ [actionStep a] := by
  cases a <;>
    simp [applyAction, ScenarioBuilder.click, ScenarioBuilder.fill,
      ScenarioBuilder.wait, ScenarioBuilder.execute,
      ScenarioBuilder.waitForNavigation, ScenarioBuilder.waitForSelector,
      ScenarioBuilder.scroll, ScenarioBuilder.conditionOnStatusCode,
      ScenarioBuilder.conditionOnSelector, actionStep, hb]

lemma foldl_applyAction (acts : List Action) :
    ∀ b : ScenarioBuilder, b.err = none →
      (acts.foldl applyAction b).err = none ∧
      (acts.foldl applyAction b).steps = b.steps ++ acts.map actionStep := by
  induction acts with
  | nil => intro b hb; simp [hb]
  | cons a acts ih =>
    intro b hb
    have h1 := applyAction_of_err_none b a hb
    have h2 := ih (applyAction b a) h1.1
    simp only [List.foldl_cons, List.map_cons]
    refine ⟨h2.1, ?_⟩
    rw [h2.2, h1.2, List.append_assoc]
    rfl

/-- C9: any finite sequence of action-method calls starting from `New`
appends exactly one step per call — keyed by the action name — in call
order, never sets the builder's sticky error, and `Build` succeeds,
returning the nil slice exactly for the empty scenario and the full step
list otherwise. -/
theorem scenario_builder_invariant :
    ∀ acts : List Action,
      (runActions acts).err = none ∧
      (runActions acts).steps = acts.map actionStep ∧
      (runActions acts).build =
        Except.ok (if acts.isEmpty then none else some (acts.map actionStep)) := by
  intro acts
  have h := foldl_applyAction acts New rfl
  have herr : (runActions acts).err = none := h.1
  have hsteps : (runActions acts).steps = acts.map actionStep := by
    have := h.2
    simpa [runActions, New] using this
  refine ⟨herr, hsteps, ?_⟩
  simp only [ScenarioBuilder.build, herr, hsteps]
  rcases acts with _ | ⟨a, acts⟩
  · rfl
  · simp

end JsScenario
